import Mathlib

/-!
Shallow embedding of the botwav2 WhatsApp relay bot (TypeScript sources) in
Lean 4, together with theorems settling the specification claims about the
error-handling retry policy, failure classification, delivery queue,
connection supervisor, relay service, and persistent state manager.

Each definition is translated from the corresponding TypeScript source file;
the file of origin is named in the doc comment.
-/

namespace Botwa

/-! ## ErrorHandler (src/error/ErrorHandler.ts)

The `ErrorHandler` class carries four numeric fields set in its constructor
(defaults: maxRetries = 3, initialDelay = 1000, maxDelay = 30000,
backoffMultiplier = 2). -/

/-- Configuration fields of the `ErrorHandler` class. -/
structure ErrorHandlerConfig where
  maxRetries : Nat
  initialDelay : Nat
  maxDelay : Nat
  backoffMultiplier : Nat
deriving DecidableEq

/-- The constructor defaults of `ErrorHandler`. -/
def defaultErrorHandlerConfig : ErrorHandlerConfig :=
  { maxRetries := 3, initialDelay := 1000, maxDelay := 30000, backoffMultiplier := 2 }

/-- `ErrorHandler.calculateBackoff`: `min(initialDelay * multiplier ^ attemptNumber, maxDelay)`. -/
def calculateBackoff (cfg : ErrorHandlerConfig) (attemptNumber : Nat) : Nat :=
  min (cfg.initialDelay * cfg.backoffMultiplier ^ attemptNumber) cfg.maxDelay

/-- JavaScript `String.prototype.includes`, on character lists: `needle`
occurs contiguously inside the haystack. -/
def listIncludes (needle : List Char) : List Char → Bool
  | [] => needle.isEmpty
  | c :: t => needle.isPrefixOf (c :: t) || listIncludes needle t

/-- `haystack.includes(needle)` on strings. -/
def strIncludes (haystack needle : String) : Bool :=
  listIncludes needle.data haystack.data

/-- The `nonRetryablePatterns` array of `ErrorHandler.shouldRetry`, in source
order. -/
def nonRetryablePatterns : List String :=
  ["invalid configuration", "authentication failed", "invalid recipient",
   "invalid phone number", "banned", "unauthorized"]

/-- The `retryablePatterns` array of `ErrorHandler.shouldRetry`, in source
order. -/
def retryablePatterns : List String :=
  ["timeout", "network", "econnrefused", "enotfound", "rate limit",
   "temporary", "unavailable"]

/-- ASCII lowercasing of one character, as
`String.prototype.toLowerCase` acts on the ASCII range (every pattern the
classifier compares against is plain ASCII). -/
def lowerChar (c : Char) : Char :=
  if 65 ≤ c.toNat ∧ c.toNat ≤ 90 then Char.ofNat (c.toNat + 32) else c

/-- `errorMessage.toLowerCase()`. -/
def lowerStr (s : String) : String :=
  ⟨s.data.map lowerChar⟩

/-- `ErrorHandler.shouldRetry`: lowercase the error message, return `false` on
the first non-retryable pattern it contains, else `true` on the first
retryable pattern, else `true` (unknown errors are retried). -/
def shouldRetry (errorMessage : String) : Bool :=
  if nonRetryablePatterns.any (fun p => strIncludes (lowerStr errorMessage) p) then false
  else if retryablePatterns.any (fun p => strIncludes (lowerStr errorMessage) p) then true
  else true

/-- Outcome of one run of `ErrorHandler.retryWithBackoff`: how many times the
operation was executed, the sleep durations performed between attempts, and
the final result (`.error e` models the loop throwing `e`). -/
structure RetryResult (α : Type) where
  attempts : Nat
  sleeps : List Nat
  outcome : Except String α

/-- The loop body of `ErrorHandler.retryWithBackoff`, from the iteration with
index `attempt`; `remaining = retries - attempt` counts the loop iterations
still allowed after this one (`remaining = 0` iff `attempt === retries`).
`fn n` is the outcome of the `n`-th execution of the operation (0-based):
`.ok v` if that call resolves with `v`, `.error e` if it throws `e`. -/
def retryFrom {α : Type} (cfg : ErrorHandlerConfig) (fn : Nat → Except String α)
    (attempt : Nat) : Nat → RetryResult α
  | 0 =>
    match fn attempt with
    | .ok v => { attempts := 1, sleeps := [], outcome := .ok v }
    | .error e => { attempts := 1, sleeps := [], outcome := .error e }
  | remaining + 1 =>
    match fn attempt with
    | .ok v => { attempts := 1, sleeps := [], outcome := .ok v }
    | .error e =>
      if shouldRetry e then
        let rest := retryFrom cfg fn (attempt + 1) remaining
        { attempts := rest.attempts + 1,
          sleeps := calculateBackoff cfg attempt :: rest.sleeps,
          outcome := rest.outcome }
      else
        { attempts := 1, sleeps := [], outcome := .error e }

/-- `ErrorHandler.retryWithBackoff(fn, operation, maxRetries?)`: runs the
attempt loop from attempt 0 with `retries = maxRetries ?? this.maxRetries`. -/
def retryWithBackoff {α : Type} (cfg : ErrorHandlerConfig) (fn : Nat → Except String α)
    (maxRetries : Option Nat) : RetryResult α :=
  retryFrom cfg fn 0 (maxRetries.getD cfg.maxRetries)

/-! ## MessageQueue (src/queue/MessageQueue.ts) -/

/-- The `type` field of `QueuedMessage`: `'text' | 'media'`. -/
inductive QueuedKind where
  | text
  | media
deriving DecidableEq

/-- The `QueuedMessage` interface. `content : any` is modelled as a string,
`timestamp : Date` as a numeric clock value. -/
structure QueuedMessage where
  id : String
  /-- the `to` field (`to` is reserved in Lean) -/
  dest : String
  content : String
  kind : QueuedKind
  timestamp : Nat
  retryCount : Nat
deriving DecidableEq

/-- `MessageQueue.enqueue` appends the message at the tail
(`this.queue.push(message)`). -/
def enqueue (queue : List QueuedMessage) (message : QueuedMessage) : List QueuedMessage :=
  queue ++ [message]

/-- Observable events of one pass of `MessageQueue.processQueue`. The source
loop never calls any delivery function; `deliver` is included as vocabulary
for the specification's claimed hand-off so that its absence from the code's
trace can be stated. -/
inductive QueueEvent where
  /-- the `sleep(this.rateLimitDelay)` taken while `isRateLimited` holds -/
  | rateLimitWait (ms : Nat)
  /-- the `'Processing queued message'` log for a dequeued message, recording
  `remainingInQueue` -/
  | processed (id : String) (remainingInQueue : Nat)
  /-- the unconditional `sleep(this.rateLimitDelay)` after each message -/
  | interMessageSleep (ms : Nat)
  /-- hand-off of a dequeued job to a delivery function; `processQueue` emits
  none of these -/
  | deliver (id : String)
deriving DecidableEq

/-- The drain loop of `MessageQueue.processQueue` (the body after the
`isProcessing` guard is taken): while the buffer is non-empty, optionally wait
out the rate limit, shift the head message, log it, and sleep the
inter-message delay. The dequeued message is only logged — no delivery
call exists in the source. -/
def processQueue (isRateLimited : Bool) (rateLimitDelay : Nat) :
    List QueuedMessage → List QueueEvent
  | [] => []
  | message :: rest =>
    (if isRateLimited then [QueueEvent.rateLimitWait rateLimitDelay] else []) ++
    (QueueEvent.processed message.id rest.length ::
     QueueEvent.interMessageSleep rateLimitDelay ::
     processQueue isRateLimited rateLimitDelay rest)

/-- The ids of the jobs the drain claims delivery for, in trace order. -/
def deliveredIds (events : List QueueEvent) : List String :=
  events.filterMap fun e =>
    match e with
    | QueueEvent.deliver id => some id
    | _ => none

/-- The ids of the jobs the drain dequeued and logged, in trace order. -/
def processedIds (events : List QueueEvent) : List String :=
  events.filterMap fun e =>
    match e with
    | QueueEvent.processed id _ => some id
    | _ => none

/-- The inter-message sleeps of a drain trace. -/
def interMessageSleeps (events : List QueueEvent) : List Nat :=
  events.filterMap fun e =>
    match e with
    | QueueEvent.interMessageSleep ms => some ms
    | _ => none

/-- The rate-limit waits of a drain trace. -/
def rateLimitWaits (events : List QueueEvent) : List Nat :=
  events.filterMap fun e =>
    match e with
    | QueueEvent.rateLimitWait ms => some ms
    | _ => none

/-! ## WhatsAppClientManager (src/client/WhatsAppClientManager.ts) -/

/-- The manager's `maxReconnectAttempts` field (initialised to 5). -/
def maxReconnectAttempts : Nat := 5

/-- Mutable fields of `WhatsAppClientManager` relevant to its connection
supervision: `client` (null until `initialize()` constructs one, modelled as
`Option Unit`), `isClientReady`, and `reconnectAttempts`. -/
structure ClientManagerState where
  client : Option Unit
  isClientReady : Bool
  reconnectAttempts : Nat
deriving DecidableEq

/-- The manager's field initialisers: `client = null`,
`isClientReady = false`, `reconnectAttempts = 0`. -/
def initialClientManagerState : ClientManagerState :=
  { client := none, isClientReady := false, reconnectAttempts := 0 }

/-- The `'ready'` event handler: sets `isClientReady = true` and resets
`reconnectAttempts` to 0. -/
def handleReady (s : ClientManagerState) : ClientManagerState :=
  { s with isClientReady := true, reconnectAttempts := 0 }

/-- The `'auth_failure'` event handler: clears `isClientReady`. -/
def handleAuthFailure (s : ClientManagerState) : ClientManagerState :=
  { s with isClientReady := false }

/-- The `'disconnected'` event handler followed by `handleDisconnect()`:
clears `isClientReady`; then, if `reconnectAttempts >= maxReconnectAttempts`,
logs `'Max reconnection attempts reached'` and returns without reconnecting
(result `none`); otherwise increments `reconnectAttempts`, computes
`delay = Math.min(1000 * Math.pow(2, this.reconnectAttempts), 30000)` with
the already-incremented counter, waits, and re-runs `initialize()` (which
constructs a fresh client). The second component is `some delay` when a
reconnection is attempted after that delay. -/
def handleDisconnected (s : ClientManagerState) : ClientManagerState × Option Nat :=
  let s1 : ClientManagerState := { s with isClientReady := false }
  if s1.reconnectAttempts ≥ maxReconnectAttempts then
    (s1, none)
  else
    let a := s1.reconnectAttempts + 1
    let delay := min (1000 * 2 ^ a) 30000
    ({ s1 with reconnectAttempts := a, client := some () }, some delay)

/-- Iterated disconnect events (keeping only the resulting state). -/
def disconnectN : Nat → ClientManagerState → ClientManagerState
  | 0, s => s
  | n + 1, s => disconnectN n (handleDisconnected s).1

/-- `WhatsAppClientManager.getClient`: throws
`'Client not initialized. Call initialize() first.'` when `client` is null,
otherwise returns the client — its readiness is not consulted. -/
def getClient (s : ClientManagerState) : Except String Unit :=
  match s.client with
  | none => .error "Client not initialized. Call initialize() first."
  | some c => .ok c

/-- `WhatsAppClientManager.getClientInfo`: throws `'Client not ready'` unless
the client exists and `isClientReady` holds. -/
def getClientInfo (s : ClientManagerState) : Except String Unit :=
  match s.client with
  | none => .error "Client not ready"
  | some c => if s.isClientReady then .ok c else .error "Client not ready"

/-- `WhatsAppClientManager.isReady`. -/
def isReady (s : ClientManagerState) : Bool :=
  s.isClientReady

/-- Modelled from the spec: the `Failed` condition of the connection
supervisor — the state in which the reconnect budget is exhausted and the
supervisor refuses to schedule further reconnections. The source has no
explicit state name for this; it is the condition under which
`handleDisconnect` returns without reconnecting. -/
def inFailedCondition (s : ClientManagerState) : Bool :=
  decide (s.reconnectAttempts ≥ maxReconnectAttempts)

/-! ## StateManager (src/state/StateManager.ts) -/

/-- The `BotState` interface. `Date` values are modelled as numeric clock
values; `lastMessageTimestamp : Date | null` as `Option Nat`. -/
structure BotState where
  lastMessageTimestamp : Option Nat
  messageCount : Nat
  errorCount : Nat
  startTime : Nat
  lastSaveTime : Nat
deriving DecidableEq

/-- `StateManager.getDefaultState` at clock value `now` (`new Date()` for both
`startTime` and `lastSaveTime`). -/
def getDefaultState (now : Nat) : BotState :=
  { lastMessageTimestamp := none, messageCount := 0, errorCount := 0,
    startTime := now, lastSaveTime := now }

/-- `StateManager.incrementMessageCount`: bumps `messageCount` and stamps
`lastMessageTimestamp` with the current clock. -/
def incrementMessageCount (now : Nat) (s : BotState) : BotState :=
  { s with messageCount := s.messageCount + 1, lastMessageTimestamp := some now }

/-- `StateManager.incrementErrorCount`: bumps `errorCount`. -/
def incrementErrorCount (s : BotState) : BotState :=
  { s with errorCount := s.errorCount + 1 }

/-- The durable counters file as `StateManager.loadState` observes it:
`none` — `fs.existsSync` is false (no file); `some none` — the file exists
but reading/`JSON.parse` throws; `some (some st)` — the file parses to the
state `st`. -/
def StateFile : Type := Option (Option BotState)

/-- `StateManager.loadState`: a missing file returns the current (default)
state after an info log; a read/parse failure is caught, logged, and likewise
returns the current state; a parsed file replaces the state. Every branch
returns normally — no error escapes the method. -/
def loadState (file : StateFile) (current : BotState) : BotState :=
  match file with
  | none => current
  | some none => current
  | some (some loaded) => loaded

/-- `StateManager.saveState` at clock `now`: stamps `lastSaveTime`, then
writes `JSON.stringify(this.state)`; returns the new in-memory state and the
file content it persisted (which parses back to that same state). -/
def saveState (now : Nat) (s : BotState) : BotState × StateFile :=
  let s1 := { s with lastSaveTime := now }
  (s1, some (some s1))

/-! ### Reference-level model of `StateManager.getState` (C10)

`getState` returns `{ ...this.state }` — a fresh object whose fields are
copied from the internal state object. To reason about mutation of the
returned object we model the object heap explicitly: addresses are naturals,
`next` is the next unallocated address, and every `BotState` field is a value
(so a field assignment on one object is a `writeRef` of that object only;
this matches the observations the claim makes, which are field
assignments). -/

/-- An explicit heap of `BotState` objects. -/
structure Heap where
  next : Nat
  mem : Nat → BotState

/-- Read the object at address `r`. -/
def readRef (h : Heap) (r : Nat) : BotState :=
  h.mem r

/-- Overwrite (a field of) the object at address `r` — the mutation
`obj.field = v` is a special case with `v` differing from `h.mem r` in one
field. -/
def writeRef (h : Heap) (r : Nat) (v : BotState) : Heap :=
  { h with mem := fun x => if x = r then v else h.mem x }

/-- Allocate a fresh object holding `v`; returns the new heap and the fresh
address. -/
def allocRef (h : Heap) (v : BotState) : Heap × Nat :=
  ({ next := h.next + 1, mem := fun x => if x = h.next then v else h.mem x }, h.next)

/-- `StateManager.getState` with the manager's state object at address `mgr`:
`return { ...this.state }` allocates a fresh object with the same field
values and returns its address. -/
def getState (h : Heap) (mgr : Nat) : Heap × Nat :=
  allocRef h (readRef h mgr)

/-- A heap is well-formed when every allocated address is below `next`; the
manager's state object is allocated in its constructor, so `mgr < h.next`. -/
def heapValid (h : Heap) (mgr : Nat) : Prop :=
  mgr < h.next

/-! ## MessageRelayService (src/relay/MessageRelayService.ts)

The service is constructed with a logger, a `ConfigManager`, an
`ErrorHandler`, and a `WhatsAppClientManager` — these four references are the
whole of its state; in particular it holds no reference to the
`StateManager`. -/

/-- A downloaded `MessageMedia` object (`mimetype` and base64 `data`). -/
structure MediaObj where
  mimetype : String
  data : String
deriving DecidableEq

/-- An inbound `Message` as the relay service consumes it: the sender id
(`message.from`), body text, and the `hasMedia` flag. -/
structure IncomingMessage where
  sender : String
  body : String
  hasMedia : Bool
deriving DecidableEq

/-- The external collaborators the service consults: the `ConfigManager`'s
`getNumberMapping` and `getPrefix`. -/
structure RelayEnv where
  getNumberMapping : String → Option String
  getPrefix : String → String

/-- Outcomes of the transport operations, indexed by retry attempt:
`textSend n` is the result of the `n`-th `client.sendMessage` inside
`relayTextMessage`; `mediaDownload n` that of the `n`-th
`message.downloadMedia()` (which may resolve to null, i.e. `.ok none`);
`mediaSend n` that of the `n`-th `client.sendMessage` inside
`relayMediaMessage`. -/
structure RelayIO where
  textSend : Nat → Except String Unit
  mediaDownload : Nat → Except String (Option MediaObj)
  mediaSend : Nat → Except String Unit

/-- Externally observable actions of the relay service. -/
inductive RelayAction where
  /-- one `client.sendMessage(to, formattedMessage)` attempt (text relay) -/
  | sendText (dest body : String)
  /-- one `client.sendMessage(to, media, { caption })` attempt (media relay) -/
  | sendMedia (dest : String) (caption : Option String)
  /-- `sendErrorMessage(to, errorText)`: the reply sent back to a sender -/
  | errorReply (dest text : String)
  /-- the `'Message from unknown number, ignoring'` warning -/
  | warnUnknown (sender : String)
  /-- an `logger.error`/`handleError` record tagged with its operation -/
  | errorLogged (tag : String)
  /-- a `'… relayed successfully'` info log tagged with its operation -/
  | successLogged (tag : String)
deriving DecidableEq

/-- The fixed apology text `handleIncomingMessage` replies with when media
relay fails. -/
def apologyText : String :=
  "jangan ngirim video, kaga bisa dibuka soalnya pake nomor bot gue"

/-- The prefix formatting shared by `relayTextMessage` and
`relayMediaMessage`: `` prefix ? `${prefix} ${text}` : text `` (the empty
string is falsy in JavaScript). -/
def formatWithPrefix (pfx text : String) : String :=
  if pfx = "" then text else pfx ++ " " ++ text

/-- `MessageRelayService.relayTextMessage`: formats the body, retries the
send under `retryWithBackoff(…, 'relayTextMessage')`, logs success, and on
terminal failure logs and rethrows. The trace records one `sendText` per
attempt made. -/
def relayTextMessage (cfg : ErrorHandlerConfig) (io : RelayIO)
    (dest text pfx : String) : List RelayAction × Except String Unit :=
  let formatted := formatWithPrefix pfx text
  let r := retryWithBackoff cfg io.textSend none
  let sends := List.replicate r.attempts (RelayAction.sendText dest formatted)
  match r.outcome with
  | .ok _ => (sends ++ [RelayAction.successLogged "relayTextMessage"], .ok ())
  | .error e => (sends ++ [RelayAction.errorLogged "relayTextMessage"], .error e)

/-- `MessageRelayService.downloadMedia`: retries `message.downloadMedia()`
under `retryWithBackoff(…, 'downloadMedia')`; a null result raises
`'Media download returned null'`; every failure is caught, logged, and
converted to a `null` (`none`) return. -/
def downloadMedia (cfg : ErrorHandlerConfig) (io : RelayIO) :
    List RelayAction × Option MediaObj :=
  let r := retryWithBackoff cfg io.mediaDownload none
  match r.outcome with
  | .ok (some media) => ([], some media)
  | .ok none => ([RelayAction.errorLogged "downloadMedia"], none)
  | .error _ => ([RelayAction.errorLogged "downloadMedia"], none)

/-- `MessageRelayService.relayMediaMessage`: downloads the media (a `none`
result raises `'Failed to download media'`), builds the caption from the
body and prefix (`caption || undefined` passes `undefined` for the empty
caption), retries the send under `retryWithBackoff(…, 'relayMediaMessage')`,
and on terminal failure logs and rethrows. -/
def relayMediaMessage (cfg : ErrorHandlerConfig) (io : RelayIO)
    (dest body pfx : String) : List RelayAction × Except String Unit :=
  match downloadMedia cfg io with
  | (acts, none) =>
    (acts ++ [RelayAction.errorLogged "relayMediaMessage"],
     .error "Failed to download media")
  | (acts, some _media) =>
    let caption := if body ≠ "" then formatWithPrefix pfx body
                   else if pfx ≠ "" then pfx else ""
    let captionOpt := if caption = "" then none else some caption
    let r := retryWithBackoff cfg io.mediaSend none
    let sends := List.replicate r.attempts (RelayAction.sendMedia dest captionOpt)
    match r.outcome with
    | .ok _ => (acts ++ sends ++ [RelayAction.successLogged "relayMediaMessage"], .ok ())
    | .error e =>
      (acts ++ sends ++ [RelayAction.errorLogged "relayMediaMessage"], .error e)

/-- `MessageRelayService.handleIncomingMessage`: resolves the relay target
(unknown senders are logged and dropped), resolves the prefix, then branches
on `hasMedia`. A media failure is answered with the fixed apology to the
original sender (`sendErrorMessage(from, …)`, which swallows its own
errors); a text failure propagates to the outer catch, which only logs via
`errorHandler.handleError`. The method itself never rejects, so its result
is the action trace alone. -/
def handleIncomingMessage (cfg : ErrorHandlerConfig) (env : RelayEnv)
    (io : RelayIO) (msg : IncomingMessage) : List RelayAction :=
  match env.getNumberMapping msg.sender with
  | none => [RelayAction.warnUnknown msg.sender]
  | some target =>
    let pfx := env.getPrefix msg.sender
    if msg.hasMedia then
      match relayMediaMessage cfg io target msg.body pfx with
      | (acts, .ok _) => acts
      | (acts, .error _) => acts ++ [RelayAction.errorReply msg.sender apologyText]
    else
      match relayTextMessage cfg io target msg.body pfx with
      | (acts, .ok _) => acts
      | (acts, .error _) => acts ++ [RelayAction.errorLogged "handleIncomingMessage"]

/-- The `errorReply` actions of a trace. -/
def errorReplies (acts : List RelayAction) : List RelayAction :=
  acts.filter fun a =>
    match a with
    | RelayAction.errorReply _ _ => true
    | _ => false

/-- The number of successful relays recorded in a trace. -/
def relayedSuccessCount (acts : List RelayAction) : Nat :=
  (acts.filter fun a =>
    match a with
    | RelayAction.successLogged _ => true
    | _ => false).length

/-- The number of terminal relay failures recorded in a trace (the
`handleIncomingMessage`-level logs of an absorbed text failure, and the
apology replies marking a media failure). -/
def terminalFailureCount (acts : List RelayAction) : Nat :=
  (acts.filter fun a =>
    match a with
    | RelayAction.errorLogged "handleIncomingMessage" => true
    | RelayAction.errorReply _ _ => true
    | _ => false).length

/-- One inbound message handled at system level: the relay service produces
its action trace, and the `StateManager`'s `BotState` passes through
untouched — `MessageRelayService` is constructed from the logger, config
manager, error handler, and client manager only, and no code path of
`handleIncomingMessage` references the `StateManager`. -/
def systemHandleMessage (cfg : ErrorHandlerConfig) (env : RelayEnv)
    (io : RelayIO) (msg : IncomingMessage) (st : BotState) :
    List RelayAction × BotState :=
  (handleIncomingMessage cfg env io msg, st)

/-! ## Helper lemmas -/

/-- The retry loop executes the operation at most `remaining + 1` times. -/
theorem retryFrom_attempts_le {α : Type} (cfg : ErrorHandlerConfig)
    (fn : Nat → Except String α) :
    ∀ (remaining attempt : Nat),
      (retryFrom cfg fn attempt remaining).attempts ≤ remaining + 1
  | 0, attempt => by
    unfold retryFrom
    cases fn attempt <;> simp
  | remaining + 1, attempt => by
    unfold retryFrom
    cases fn attempt with
    | ok v => simp
    | error e =>
      by_cases hre : shouldRetry e = true
      · have ih := retryFrom_attempts_le cfg fn remaining (attempt + 1)
        simp only [hre, if_true]
        omega
      · simp only [Bool.not_eq_true] at hre
        simp [hre]

/-- On an operation that throws a retryable error at every attempt, the loop
runs all `remaining + 1` attempts, sleeping the backoff of each failed
attempt index, and finishes with the last error. -/
theorem retryFrom_allFail (cfg : ErrorHandlerConfig) (e : Nat → String)
    (hre : ∀ n, shouldRetry (e n) = true) :
    ∀ (remaining attempt : Nat),
      retryFrom cfg (fun n => (Except.error (e n) : Except String Unit)) attempt remaining =
        { attempts := remaining + 1,
          sleeps := (List.range remaining).map (fun i => calculateBackoff cfg (attempt + i)),
          outcome := Except.error (e (attempt + remaining)) }
  | 0, attempt => by
    simp [retryFrom]
  | remaining + 1, attempt => by
    have ih := retryFrom_allFail cfg e hre remaining (attempt + 1)
    have hsleeps : (List.range (remaining + 1)).map (fun i => calculateBackoff cfg (attempt + i)) =
        calculateBackoff cfg attempt ::
          (List.range remaining).map (fun i => calculateBackoff cfg (attempt + 1 + i)) := by
      rw [List.range_succ_eq_map, List.map_cons, List.map_map]
      refine congrArg₂ List.cons (by rw [Nat.add_zero]) ?_
      refine List.map_congr_left ?_
      intro i _
      simp only [Function.comp_apply]
      congr 1
      omega
    have houtcome : e (attempt + 1 + remaining) = e (attempt + (remaining + 1)) := by
      congr 1
      omega
    simp only [retryFrom, hre, if_true, ih, hsleeps, houtcome]

/-! ## Claim theorems -/

/-- **C3.** `ErrorHandler.retryWithBackoff` executes the operation at most
`maxRetries + 1` times for every operation; the backoff slept after the
failed attempt with 0-based index `n` (i.e. before attempt `n + 1`) is
`min(initialDelay * multiplier ^ n, maxDelay)`; and on an operation that
fails with a retryable error at every attempt it performs exactly
`maxRetries + 1` attempts, sleeping `calculateBackoff cfg 0, …,
calculateBackoff cfg (maxRetries - 1)` in order, and re-raises the last
error. -/
theorem c3_retryWithBackoff_spec (cfg : ErrorHandlerConfig) (retries : Nat)
    (e : Nat → String) (hre : ∀ n, shouldRetry (e n) = true) :
    (∀ (α : Type) (fn : Nat → Except String α),
      (retryWithBackoff cfg fn (some retries)).attempts ≤ retries + 1) ∧
    (∀ n, calculateBackoff cfg n =
      min (cfg.initialDelay * cfg.backoffMultiplier ^ n) cfg.maxDelay) ∧
    retryWithBackoff cfg (fun n => (Except.error (e n) : Except String Unit))
        (some retries) =
      { attempts := retries + 1,
        sleeps := (List.range retries).map (calculateBackoff cfg),
        outcome := Except.error (e retries) } := by
  refine ⟨?_, fun n => rfl, ?_⟩
  · intro α fn
    exact retryFrom_attempts_le cfg fn retries 0
  · have h := retryFrom_allFail cfg e hre retries 0
    simpa [retryWithBackoff] using h

/-- Witness for C3: with the constructor defaults (`maxRetries = 3`,
`initialDelay = 1000 ms`, `multiplier = 2`, `maxDelay = 30000 ms`) and an
operation that always throws `'timeout'`, the loop makes 4 attempts with
sleeps 1000, 2000, 4000 ms and re-raises `'timeout'`. -/
theorem c3_retryWithBackoff_spec_witness :
    retryWithBackoff defaultErrorHandlerConfig
        (fun n => (Except.error ((fun _ => "timeout") n) : Except String Unit))
        (some 3) =
      { attempts := 3 + 1,
        sleeps := (List.range 3).map (calculateBackoff defaultErrorHandlerConfig),
        outcome := Except.error ((fun _ => "timeout") 3) } :=
  (c3_retryWithBackoff_spec defaultErrorHandlerConfig 3 (fun _ => "timeout")
    (fun _ => (by decide : shouldRetry "timeout" = true))).2.2

/-- **C4.** `ErrorHandler.shouldRetry` classifies by case-insensitive
substring matching with the non-retryable list checked first: it returns
`false` exactly when the lowercased message contains one of the six
non-retryable patterns; a non-retryable classification makes
`retryWithBackoff` abort after a single attempt regardless of the remaining
budget; and any message matching no non-retryable pattern — in particular one
containing `"timeout"` or any retryable pattern, or matching neither list —
is classified retryable. -/
theorem c4_shouldRetry_spec (msg : String) (cfg : ErrorHandlerConfig)
    (retries : Nat) :
    (shouldRetry msg = false ↔
      nonRetryablePatterns.any (fun p => strIncludes (lowerStr msg) p) = true) ∧
    (shouldRetry msg = false →
      (retryWithBackoff cfg (fun _ => (Except.error msg : Except String Unit))
        (some retries)).attempts = 1) ∧
    ((∀ p ∈ nonRetryablePatterns, strIncludes (lowerStr msg) p = false) →
      shouldRetry msg = true) := by
  have hchar : shouldRetry msg =
      (!nonRetryablePatterns.any (fun p => strIncludes (lowerStr msg) p)) := by
    unfold shouldRetry
    by_cases h : nonRetryablePatterns.any (fun p => strIncludes (lowerStr msg) p) = true
    · simp [h]
    · simp only [Bool.not_eq_true] at h
      simp [h, ite_self]
  refine ⟨?_, ?_, ?_⟩
  · rw [hchar]
    simp
  · intro hfalse
    unfold retryWithBackoff
    cases retries with
    | zero => simp [retryFrom]
    | succ r => simp [retryFrom, hfalse]
  · intro hall
    rw [hchar]
    simp only [Bool.not_eq_true']
    simp only [List.any_eq_false]
    intro p hp
    simp [hall p hp]

/-- Witness for C4: `"User is BANNED: timeout"` contains the non-retryable
pattern `"banned"` case-insensitively, so it is non-retryable and aborts
after one attempt even with 3 retries remaining; `"totally mysterious"`
matches neither list and is retryable. -/
theorem c4_shouldRetry_spec_witness :
    shouldRetry "User is BANNED: timeout" = false ∧
    (retryWithBackoff defaultErrorHandlerConfig
      (fun _ => (Except.error "User is BANNED: timeout" : Except String Unit))
      (some 3)).attempts = 1 ∧
    shouldRetry "totally mysterious" = true :=
  ⟨by decide,
   (c4_shouldRetry_spec "User is BANNED: timeout" defaultErrorHandlerConfig 3).2.1
     (by decide),
   (c4_shouldRetry_spec "totally mysterious" defaultErrorHandlerConfig 3).2.2
     (by decide)⟩

/-- A concrete relay job for counterexamples and witnesses. -/
def sampleJob : QueuedMessage :=
  { id := "job-1", dest := "B", content := "hello", kind := QueuedKind.text,
    timestamp := 0, retryCount := 0 }

/-- A second concrete relay job. -/
def sampleJob2 : QueuedMessage :=
  { id := "job-2", dest := "B", content := "world", kind := QueuedKind.text,
    timestamp := 1, retryCount := 0 }

/-- Folding `enqueue` over a message list appends it to the buffer in order. -/
theorem enqueue_foldl (jobs : List QueuedMessage) :
    ∀ q : List QueuedMessage, List.foldl enqueue q jobs = q ++ jobs := by
  induction jobs with
  | nil => intro q; simp
  | cons m rest ih =>
    intro q
    simp [enqueue, ih]

/-- **C2 counterexample.** The claim asserts that the drain loop hands each
dequeued job to a caller-supplied delivery function, so that one job enqueued
with rate-limiting disabled yields exactly one delivery attempt for it. The
drain trace for the one-job queue contains no delivery hand-off at all: the
dequeued job is only logged and slept over. -/
theorem c2_fifo_counterexample :
    deliveredIds (processQueue false 1000 [sampleJob]) = [] ∧
    [sampleJob].map QueuedMessage.id = ["job-1"] ∧
    deliveredIds (processQueue false 1000 [sampleJob]) ≠
      [sampleJob].map QueuedMessage.id := by
  refine ⟨by decide, by decide, by decide⟩

/-- **C2 (amended).** With rate-limiting disabled, the drain loop of
`MessageQueue.processQueue` pops each job from the head exactly once in
enqueue order (strict FIFO, no job skipped or reordered) and unconditionally
sleeps the inter-message delay (the `rateLimitDelay` field, default 1000 ms)
after each job; but no caller-supplied delivery function exists or is
invoked — the dequeued job is only logged, so the trace contains no delivery
hand-offs. -/
theorem c2_fifo_amended (d : Nat) (jobs : List QueuedMessage) :
    processedIds (processQueue false d jobs) = jobs.map QueuedMessage.id ∧
    interMessageSleeps (processQueue false d jobs) = List.replicate jobs.length d ∧
    rateLimitWaits (processQueue false d jobs) = [] ∧
    deliveredIds (processQueue false d jobs) = [] ∧
    List.foldl enqueue [] jobs = jobs := by
  refine ⟨?_, ?_, ?_, ?_, by simpa using enqueue_foldl jobs []⟩
  all_goals
    induction jobs with
    | nil => simp [processQueue, processedIds, interMessageSleeps, rateLimitWaits, deliveredIds]
    | cons m rest ih =>
      simp [processQueue, processedIds, interMessageSleeps, rateLimitWaits,
        deliveredIds, List.replicate_succ] at ih ⊢
      exact ih

/-- Witness for C2 (amended): a concrete two-job drain at the default
inter-message delay. -/
theorem c2_fifo_amended_witness :
    processedIds (processQueue false 1000 [sampleJob, sampleJob2]) =
      ["job-1", "job-2"] ∧
    interMessageSleeps (processQueue false 1000 [sampleJob, sampleJob2]) =
      [1000, 1000] ∧
    deliveredIds (processQueue false 1000 [sampleJob, sampleJob2]) = [] := by
  have h := c2_fifo_amended 1000 [sampleJob, sampleJob2]
  exact ⟨by rw [h.1]; decide, by rw [h.2.1]; decide, h.2.2.2.1⟩

/-- After `n` further disconnect events, the attempt counter has grown by `n`
as long as the budget is not exhausted along the way. -/
theorem disconnectN_attempts (n : Nat) :
    ∀ s : ClientManagerState, s.reconnectAttempts + n ≤ maxReconnectAttempts →
      (disconnectN n s).reconnectAttempts = s.reconnectAttempts + n := by
  induction n with
  | zero => intro s _; simp [disconnectN]
  | succ n ih =>
    intro s hs
    have hlt : ¬ s.reconnectAttempts ≥ maxReconnectAttempts := by omega
    have hstep : (handleDisconnected s).1.reconnectAttempts = s.reconnectAttempts + 1 := by
      simp [handleDisconnected, hlt]
    have := ih (handleDisconnected s).1 (by omega)
    simp only [disconnectN, this, hstep]
    omega

/-- **C5.** Reconnection is bounded: starting from a zeroed attempt counter,
each of the first 5 disconnect events still schedules a reconnection, but
after 5 consecutive disconnect events without an intervening `ready` the
supervisor is in the Failed condition and any further disconnect event
schedules no reconnection; and a `ready` event resets the attempt counter to
0 from any state. -/
theorem c5_reconnect_bound (s0 : ClientManagerState)
    (h0 : s0.reconnectAttempts = 0) :
    (∀ k, k < maxReconnectAttempts →
      ((handleDisconnected (disconnectN k s0)).2).isSome = true) ∧
    inFailedCondition (disconnectN maxReconnectAttempts s0) = true ∧
    (∀ s : ClientManagerState, inFailedCondition s = true →
      (handleDisconnected s).2 = none) ∧
    (∀ s : ClientManagerState, (handleReady s).reconnectAttempts = 0) := by
  refine ⟨?_, ?_, ?_, fun s => rfl⟩
  · intro k hk
    have hA : (disconnectN k s0).reconnectAttempts = k := by
      have := disconnectN_attempts k s0 (by omega)
      omega
    have hlt : ¬ (disconnectN k s0).reconnectAttempts ≥ maxReconnectAttempts := by omega
    simp [handleDisconnected, hlt]
  · have hA : (disconnectN maxReconnectAttempts s0).reconnectAttempts =
        maxReconnectAttempts := by
      have := disconnectN_attempts maxReconnectAttempts s0 (by omega)
      omega
    simp [inFailedCondition, hA]
  · intro s hs
    simp only [inFailedCondition, decide_eq_true_eq] at hs
    simp [handleDisconnected, hs]

/-- Witness for C5: from the freshly constructed manager, the 5th consecutive
disconnect exhausts the budget — the supervisor is Failed and a 6th
disconnect schedules no reconnection — while a `ready` event resets the
counter. -/
theorem c5_reconnect_bound_witness :
    inFailedCondition (disconnectN maxReconnectAttempts initialClientManagerState) = true ∧
    (handleDisconnected (disconnectN maxReconnectAttempts initialClientManagerState)).2 = none ∧
    (handleReady (disconnectN maxReconnectAttempts initialClientManagerState)).reconnectAttempts = 0 := by
  have h := c5_reconnect_bound initialClientManagerState rfl
  exact ⟨h.2.1, h.2.2.1 _ h.2.1, h.2.2.2 _⟩

/-- **C6 counterexample.** The claim says the first reconnection after a
disconnect (0 attempts already made) waits `min(1000 * 2 ^ 0, 30000) = 1000`
ms. The handler increments the attempt counter *before* computing the delay,
so the first reconnection waits 2000 ms. -/
theorem c6_backoff_counterexample :
    initialClientManagerState.reconnectAttempts = 0 ∧
    (handleDisconnected initialClientManagerState).2 = some 2000 ∧
    (2000 : Nat) ≠ min (1000 * 2 ^ 0) 30000 := by
  refine ⟨rfl, by decide, by decide⟩

/-- **C6 (amended).** For a disconnect arriving when `attempts` reconnection
attempts were already made (0-based) and the budget is not exhausted, the
delay before the next reconnection is `min(1000 * 2 ^ (attempts + 1), 30000)`
ms — the counter is incremented before the delay is computed, so the first
reconnect waits 2000 ms. -/
theorem c6_backoff_amended (s : ClientManagerState)
    (h : s.reconnectAttempts < maxReconnectAttempts) :
    (handleDisconnected s).2 = some (min (1000 * 2 ^ (s.reconnectAttempts + 1)) 30000) := by
  have hlt : ¬ s.reconnectAttempts ≥ maxReconnectAttempts := by omega
  simp [handleDisconnected, hlt]

/-- Witness for C6 (amended): the first reconnect of a fresh manager waits
`min(1000 * 2 ^ 1, 30000) = 2000` ms. -/
theorem c6_backoff_amended_witness :
    (handleDisconnected initialClientManagerState).2 =
      some (min (1000 * 2 ^ (initialClientManagerState.reconnectAttempts + 1)) 30000) :=
  c6_backoff_amended initialClientManagerState (by decide)

/-- **C7 counterexample.** The claim says `getClient` fails unless the state
is Ready. In the state reached after a disconnect (client constructed,
`isClientReady = false`), `getClient` succeeds anyway: it only checks that
the client was initialised. -/
theorem c7_getClient_counterexample :
    ({ client := some (), isClientReady := false, reconnectAttempts := 1 } :
      ClientManagerState).isClientReady = false ∧
    getClient { client := some (), isClientReady := false, reconnectAttempts := 1 } =
      Except.ok () := by
  refine ⟨rfl, rfl⟩

/-- **C7 (amended).** `getClient` fails (with the `'Client not initialized'`
error) exactly when the client was never constructed, regardless of
readiness; it is `getClientInfo` that fails with `'Client not ready'` unless
the client exists and the state is Ready. -/
theorem c7_getClient_amended (s : ClientManagerState) :
    (∀ c, s.client = some c → getClient s = Except.ok c) ∧
    (s.client = none →
      getClient s = Except.error "Client not initialized. Call initialize() first.") ∧
    (getClientInfo s = Except.ok () ↔ s.client = some () ∧ s.isClientReady = true) := by
  refine ⟨?_, ?_, ?_⟩
  · intro c hc
    simp [getClient, hc]
  · intro hc
    simp [getClient, hc]
  · unfold getClientInfo
    cases hc : s.client with
    | none => simp [hc]
    | some c =>
      cases hr : s.isClientReady <;> simp [hr]

/-- Witness for C7 (amended): concrete evaluations on the disconnected and
uninitialised states. -/
theorem c7_getClient_amended_witness :
    getClient { client := some (), isClientReady := false, reconnectAttempts := 1 } =
      Except.ok () ∧
    getClient initialClientManagerState =
      Except.error "Client not initialized. Call initialize() first." ∧
    ¬ getClientInfo { client := some (), isClientReady := false, reconnectAttempts := 1 } =
      Except.ok () := by
  refine ⟨(c7_getClient_amended _).1 () rfl, (c7_getClient_amended _).2.1 rfl, ?_⟩
  intro h
  have := ((c7_getClient_amended
    { client := some (), isClientReady := false, reconnectAttempts := 1 }).2.2).mp h
  simp at this

/-- A filtered action list distributes over append. -/
theorem errorReplies_append (l1 l2 : List RelayAction) :
    errorReplies (l1 ++ l2) = errorReplies l1 ++ errorReplies l2 := by
  simp [errorReplies, List.filter_append]

/-- Repeated text-send attempts contain no error replies. -/
theorem errorReplies_replicate_sendText (n : Nat) (dest body : String) :
    errorReplies (List.replicate n (RelayAction.sendText dest body)) = [] := by
  induction n with
  | zero => rfl
  | succ n ih =>
    simp only [List.replicate_succ, errorReplies, List.filter_cons] at ih ⊢
    simp [ih]

/-- Repeated media-send attempts contain no error replies. -/
theorem errorReplies_replicate_sendMedia (n : Nat) (dest : String)
    (caption : Option String) :
    errorReplies (List.replicate n (RelayAction.sendMedia dest caption)) = [] := by
  induction n with
  | zero => rfl
  | succ n ih =>
    simp only [List.replicate_succ, errorReplies, List.filter_cons] at ih ⊢
    simp [ih]

/-- `relayTextMessage` sends no error replies itself. -/
theorem errorReplies_relayText (cfg : ErrorHandlerConfig) (io : RelayIO)
    (dest text pfx : String) :
    errorReplies (relayTextMessage cfg io dest text pfx).1 = [] := by
  rcases h : (retryWithBackoff cfg io.textSend none).outcome with v | e <;>
    · simp only [relayTextMessage, h]
      rw [errorReplies_append, errorReplies_replicate_sendText]
      rfl

/-- `downloadMedia` sends no error replies itself. -/
theorem errorReplies_downloadMedia (cfg : ErrorHandlerConfig) (io : RelayIO) :
    errorReplies (downloadMedia cfg io).1 = [] := by
  rcases h : (retryWithBackoff cfg io.mediaDownload none).outcome with err | (_ | m) <;>
    simp [downloadMedia, h, errorReplies]

/-- `relayMediaMessage` sends no error replies itself. -/
theorem errorReplies_relayMedia (cfg : ErrorHandlerConfig) (io : RelayIO)
    (dest body pfx : String) :
    errorReplies (relayMediaMessage cfg io dest body pfx).1 = [] := by
  have hdl := errorReplies_downloadMedia cfg io
  rcases hdm : downloadMedia cfg io with ⟨acts, media⟩
  rw [hdm] at hdl
  simp only at hdl
  cases media with
  | none =>
    simp only [relayMediaMessage, hdm]
    rw [errorReplies_append, hdl]
    rfl
  | some m =>
    rcases h : (retryWithBackoff cfg io.mediaSend none).outcome with v | e <;>
      · simp only [relayMediaMessage, hdm, h]
        rw [errorReplies_append, errorReplies_append, hdl, errorReplies_replicate_sendMedia]
        rfl

/-- **C8.** The text/media failure asymmetry of
`MessageRelayService.handleIncomingMessage`: when an inbound media message's
download-plus-relay reaches terminal failure, the handler appends exactly one
fixed apology reply addressed to the original sender and returns normally;
when an inbound text message's relay reaches terminal failure, the handler
only logs (the outer catch absorbs the error) and the trace contains no
reply to anyone. -/
theorem c8_failure_asymmetry (cfg : ErrorHandlerConfig) (env : RelayEnv)
    (io : RelayIO) (msg : IncomingMessage) (target : String)
    (hmap : env.getNumberMapping msg.sender = some target) :
    (msg.hasMedia = true →
      ∀ e, (relayMediaMessage cfg io target msg.body (env.getPrefix msg.sender)).2 =
          Except.error e →
        handleIncomingMessage cfg env io msg =
          (relayMediaMessage cfg io target msg.body (env.getPrefix msg.sender)).1 ++
            [RelayAction.errorReply msg.sender apologyText] ∧
        errorReplies (handleIncomingMessage cfg env io msg) =
          [RelayAction.errorReply msg.sender apologyText]) ∧
    (msg.hasMedia = false →
      ∀ e, (relayTextMessage cfg io target msg.body (env.getPrefix msg.sender)).2 =
          Except.error e →
        handleIncomingMessage cfg env io msg =
          (relayTextMessage cfg io target msg.body (env.getPrefix msg.sender)).1 ++
            [RelayAction.errorLogged "handleIncomingMessage"] ∧
        errorReplies (handleIncomingMessage cfg env io msg) = []) := by
  constructor
  · intro hmedia e hfail
    have hacts := errorReplies_relayMedia cfg io target msg.body (env.getPrefix msg.sender)
    rcases hrel : relayMediaMessage cfg io target msg.body (env.getPrefix msg.sender)
      with ⟨acts, res⟩
    rw [hrel] at hfail hacts
    simp only at hfail hacts
    subst hfail
    have hmain : handleIncomingMessage cfg env io msg =
        acts ++ [RelayAction.errorReply msg.sender apologyText] := by
      unfold handleIncomingMessage
      rw [hmap]
      simp only [hmedia, if_true, hrel]
    simp only [hrel]
    refine ⟨hmain, ?_⟩
    rw [hmain, errorReplies_append, hacts]
    rfl
  · intro hmedia e hfail
    have hacts := errorReplies_relayText cfg io target msg.body (env.getPrefix msg.sender)
    rcases hrel : relayTextMessage cfg io target msg.body (env.getPrefix msg.sender)
      with ⟨acts, res⟩
    rw [hrel] at hfail hacts
    simp only at hfail hacts
    subst hfail
    have hmain : handleIncomingMessage cfg env io msg =
        acts ++ [RelayAction.errorLogged "handleIncomingMessage"] := by
      unfold handleIncomingMessage
      rw [hmap]
      simp only [hmedia, Bool.false_eq_true, if_false, hrel]
    simp only [hrel]
    refine ⟨hmain, ?_⟩
    rw [hmain, errorReplies_append, hacts]
    rfl

/-- The endpoint directory used in concrete scenarios: `A` maps to `B`, with
prefix `[From A]`. -/
def sampleEnv : RelayEnv :=
  { getNumberMapping := fun s => if s = "A" then some "B" else none,
    getPrefix := fun _ => "[From A]" }

/-- Transport outcomes where every operation succeeds immediately (media
download resolves to null, as for an unsupported format). -/
def okTextIO : RelayIO :=
  { textSend := fun _ => Except.ok (),
    mediaDownload := fun _ => Except.ok none,
    mediaSend := fun _ => Except.ok () }

/-- Transport outcomes where every text send times out and every media
download resolves to null. -/
def failIO : RelayIO :=
  { textSend := fun _ => Except.error "timeout",
    mediaDownload := fun _ => Except.ok none,
    mediaSend := fun _ => Except.ok () }

/-- A concrete inbound text message from `A`. -/
def textMsg : IncomingMessage := { sender := "A", body := "hello", hasMedia := false }

/-- A concrete inbound media message from `A`. -/
def mediaMsg : IncomingMessage := { sender := "A", body := "", hasMedia := true }

/-- Witness for C8: an undownloadable media message from `A` yields exactly
one apology reply to `A`; a text message from `A` whose sends all time out
yields no reply to anyone. -/
theorem c8_failure_asymmetry_witness :
    errorReplies (handleIncomingMessage defaultErrorHandlerConfig sampleEnv failIO mediaMsg) =
      [RelayAction.errorReply "A" apologyText] ∧
    errorReplies (handleIncomingMessage defaultErrorHandlerConfig sampleEnv failIO textMsg) =
      [] :=
  ⟨((c8_failure_asymmetry defaultErrorHandlerConfig sampleEnv failIO mediaMsg "B"
      rfl).1 rfl "Failed to download media" rfl).2,
   ((c8_failure_asymmetry defaultErrorHandlerConfig sampleEnv failIO textMsg "B"
      rfl).2 rfl "timeout" rfl).2⟩

/-- **C1 counterexample.** The claim says a successful relay increments the
`messageCount` activity counter. Handling a message from `A` that relays
successfully records one successful relay in the trace, yet the
`StateManager` counters are unchanged: `MessageRelayService` holds no
reference to the `StateManager` and never calls `incrementMessageCount` or
`incrementErrorCount` (no caller of either exists in the source). -/
theorem c1_counters_counterexample :
    relayedSuccessCount
      (systemHandleMessage defaultErrorHandlerConfig sampleEnv okTextIO textMsg
        (getDefaultState 0)).1 = 1 ∧
    (systemHandleMessage defaultErrorHandlerConfig sampleEnv okTextIO textMsg
      (getDefaultState 0)).2.messageCount = 0 ∧
    (systemHandleMessage defaultErrorHandlerConfig sampleEnv okTextIO textMsg
      (getDefaultState 0)).2.messageCount ≠
      relayedSuccessCount
        (systemHandleMessage defaultErrorHandlerConfig sampleEnv okTextIO textMsg
          (getDefaultState 0)).1 := by
  refine ⟨by decide, by decide, by decide⟩

/-- **C1 (amended).** `StateManager.incrementMessageCount` bumps
`messageCount` and stamps `lastMessageTimestamp`, and `incrementErrorCount`
bumps `errorCount`, but the relay path never invokes them: handling any
sequence of inbound messages leaves the `StateManager` counters exactly as
they were. -/
theorem c1_counters_amended (cfg : ErrorHandlerConfig) (env : RelayEnv)
    (io : RelayIO) (st : BotState) (now : Nat) :
    (∀ msg, (systemHandleMessage cfg env io msg st).2 = st) ∧
    (∀ msgs : List IncomingMessage,
      List.foldl (fun s m => (systemHandleMessage cfg env io m s).2) st msgs = st) ∧
    (incrementMessageCount now st).messageCount = st.messageCount + 1 ∧
    (incrementMessageCount now st).lastMessageTimestamp = some now ∧
    (incrementErrorCount st).errorCount = st.errorCount + 1 := by
  refine ⟨fun _ => rfl, ?_, rfl, rfl, rfl⟩
  intro msgs
  induction msgs with
  | nil => rfl
  | cons m rest ih => exact ih

/-- Witness for C1 (amended): handling two concrete messages in sequence
leaves the default counters untouched. -/
theorem c1_counters_amended_witness :
    List.foldl
      (fun s m => (systemHandleMessage defaultErrorHandlerConfig sampleEnv okTextIO m s).2)
      (getDefaultState 0) [textMsg, mediaMsg] = getDefaultState 0 :=
  (c1_counters_amended defaultErrorHandlerConfig sampleEnv okTextIO
    (getDefaultState 0) 0).2.1 [textMsg, mediaMsg]

/-- **C9.** `StateManager.loadState` durability: a missing counters file
yields the fresh defaults (`messageCount = 0`) with no error raised (every
branch of `loadState` returns normally — the embedding is a total function);
an unparseable file is logged and falls back to the defaults; and loading the
file persisted by `saveState` for a state with `messageCount = 7` yields
`messageCount = 7`. -/
theorem c9_loadState_durability (now now2 : Nat) (st : BotState)
    (h7 : st.messageCount = 7) :
    loadState none (getDefaultState now) = getDefaultState now ∧
    (loadState none (getDefaultState now)).messageCount = 0 ∧
    loadState (some none) (getDefaultState now) = getDefaultState now ∧
    (loadState (saveState now2 st).2 (getDefaultState now)).messageCount = 7 := by
  refine ⟨rfl, rfl, rfl, ?_⟩
  simp [loadState, saveState, h7]

/-- A concrete state with seven relayed messages. -/
def sevenState : BotState :=
  { lastMessageTimestamp := none, messageCount := 7, errorCount := 0,
    startTime := 0, lastSaveTime := 0 }

/-- Witness for C9: a concrete state with `messageCount = 7` saved at clock
99 and reloaded over fresh defaults still reads 7. -/
theorem c9_loadState_durability_witness :
    (loadState (saveState 99 sevenState).2 (getDefaultState 5)).messageCount = 7 :=
  (c9_loadState_durability 5 99 sevenState rfl).2.2.2

/-- **C10.** `StateManager.getState` returns a copy: the returned object is a
fresh allocation distinct from the manager's internal state object, it holds
the same field values, and overwriting the returned object (any field
assignment) leaves the manager's internal state unchanged, so subsequent
reads of the internal state observe the values from before the mutation. -/
theorem c10_getState_copy (h : Heap) (mgr : Nat) (hv : heapValid h mgr)
    (v : BotState) :
    (getState h mgr).2 ≠ mgr ∧
    readRef (getState h mgr).1 (getState h mgr).2 = readRef h mgr ∧
    readRef (writeRef (getState h mgr).1 (getState h mgr).2 v) mgr =
      readRef h mgr := by
  unfold heapValid at hv
  have hne : mgr ≠ h.next := by omega
  refine ⟨?_, ?_, ?_⟩
  · simp only [getState, allocRef]
    omega
  · simp [getState, allocRef, readRef]
  · simp [getState, allocRef, readRef, writeRef, hne]

/-- A one-object heap whose manager state sits at address 0. -/
def sampleHeap : Heap := { next := 1, mem := fun _ => getDefaultState 0 }

/-- Witness for C10: mutating the copy returned by `getState` on the
concrete one-object heap leaves the manager's state readable unchanged. -/
theorem c10_getState_copy_witness :
    readRef
      (writeRef (getState sampleHeap 0).1 (getState sampleHeap 0).2
        (incrementMessageCount 5 (getDefaultState 0))) 0 =
      readRef sampleHeap 0 :=
  (c10_getState_copy sampleHeap 0 Nat.one_pos
    (incrementMessageCount 5 (getDefaultState 0))).2.2

end Botwa
